import Mathlib

/-!
Verification of the n2c source bootstrap of the oura chain ingestion engine
(src/sources/n2c/setup.rs). The file gives a shallow embedding of the
configuration type, the handshake helper and the bootstrap orchestration, and
proves the ordering, error-handling and frame properties of that code.

External collaborators (the pallas multiplexer and handshake agent, the
pipelining channel constructor, the start-point resolver and the chain-sync
loop live outside the verified source) are modelled from the spec as calls
whose outcomes are supplied by an explicit environment; the embedding captures
exactly how the bootstrap code sequences those calls and propagates their
results.
-/

/-- Errors are boxed dynamic messages in the source; modelled as strings. -/
abbrev Error := String

/-- Bearer kind of the node address (tcp socket or unix socket). -/
inductive BearerKind
  | tcp
  | unix
deriving DecidableEq

/-- Modelled from the spec: `AddressArg` pairs a bearer kind with an address
string; bootstrap reads its two components (`address.0`, `address.1`). -/
structure AddressArg where
  bearer : BearerKind
  addr : String
deriving DecidableEq

/-- Modelled from the spec: the network magic argument, a wrapped u64
(`MagicArg(pub u64)` with `Deref` to the number). -/
structure MagicArg where
  val : Nat
deriving DecidableEq

/-- Modelled from the spec: a chain point argument, slot number plus block
hash, used as a resume point. -/
structure PointArg where
  slot : Nat
  hash : String
deriving DecidableEq

/-- Modelled from the spec: the intersection argument - origin, tip, a single
point, or a fallback list of points, most preferred first. -/
inductive IntersectArg
  | origin
  | tip
  | point (p : PointArg)
  | fallbacks (ps : List PointArg)
deriving DecidableEq

/-- Modelled from the spec: pipeline-wide chain information record; its
contents are opaque to the bootstrap orchestrator, which never reads the
deprecated per-source `well_known` field holding it. -/
structure ChainWellKnownInfo where
  networkMagic : Nat
deriving DecidableEq

/-- Modelled from the spec: mapper configuration, opaque to this core and
merely forwarded to the event writer. -/
structure MapperConfig where
  settings : Nat
deriving DecidableEq

instance : Inhabited MapperConfig := ⟨⟨0⟩⟩

/-- Modelled from the spec: retry policy governing establishment of the
initial connection. -/
structure RetryPolicy where
  max_retries : Option Nat
  backoff_unit_ms : Nat
  backoff_factor : Nat
  max_backoff_ms : Nat
deriving DecidableEq

/-- Configuration of the n2c source, mirroring `Config` in setup.rs field by
field (`since` and `well_known` are the deprecated options). -/
structure Config where
  address : AddressArg
  magic : Option MagicArg
  since : Option PointArg
  intersect : Option IntersectArg
  well_known : Option ChainWellKnownInfo
  mapper : MapperConfig
  min_depth : Nat
  retry_policy : Option RetryPolicy
deriving DecidableEq

/-- Modelled from the spec: the serialized form of `Config` as the serde
deserializer sees it; the fields marked `#[serde(default)]` in the source
(`mapper` and `min_depth`) may be absent from the input. -/
structure RawConfig where
  address : AddressArg
  magic : Option MagicArg
  since : Option PointArg
  intersect : Option IntersectArg
  well_known : Option ChainWellKnownInfo
  mapper : Option MapperConfig
  min_depth : Option Nat
  retry_policy : Option RetryPolicy
deriving DecidableEq

/-- Modelled from the spec: serde deserialization of `Config`; a field marked
`#[serde(default)]` that is absent from the input is filled with the default
value of its type, which for the usize `min_depth` is 0. -/
def deserializeConfig (raw : RawConfig) : Config :=
  { address := raw.address
    magic := raw.magic
    since := raw.since
    intersect := raw.intersect
    well_known := raw.well_known
    mapper := raw.mapper.getD default
    min_depth := raw.min_depth.getD 0
    retry_policy := raw.retry_policy }

/-- Outcome of the pallas handshake agent after its run: the node accepts one
proposed version (the output carries the version number and its version data,
i.e. the network magic), refuses, or the exchange ends in some other
non-accepted state. -/
inductive HandshakeOutput
  | accepted (version : Nat) (magic : Nat)
  | refused (reason : String)
  | pending
deriving DecidableEq

/-- Modelled from the spec: the n2c version table, proposing every supported
protocol version, each carrying the configured network magic. -/
structure VersionTable where
  magic : Nat
deriving DecidableEq

/-- Modelled from the spec: `VersionTable::v1_and_above` builds the proposal
table for all supported versions from the network magic. -/
def v1_and_above (magic : Nat) : VersionTable := ⟨magic⟩

/-- Well-known magic value of the mainnet network, the pallas constant
`MAINNET_MAGIC`. -/
def MAINNET_MAGIC : Nat := 764824073

/-- Outcomes of the external calls made during bootstrap: multiplexer setup,
the handshake agent run on channel 0, the start-point resolution, and the
chain-sync loop inside the spawned worker. The embedding is parametric in
these outcomes; the code under verification decides only how they are
sequenced and propagated. -/
structure Env where
  muxResult : Except Error Unit
  hsResult : Except Error HandshakeOutput
  intersectResult : Except Error (List PointArg)
  chainSyncResult : Except Error Unit

/-- Embedding of `do_handshake` (setup.rs lines 56-65): build the version
table from the magic, run the handshake initiator agent over the channel (the
run outcome is supplied by `hsResult`, and the `?` operator propagates a run
failure), then map an `Accepted` output to `Ok(())` and any other output to
an error. The source error message contains an apostrophe, elided here. -/
def do_handshake (magic : Nat) (hsResult : Except Error HandshakeOutput) :
    Except Error Unit :=
  let _versions := v1_and_above magic
  match hsResult with
  | .error e => .error e
  | .ok out =>
    match out with
    | .accepted _ _ => .ok ()
    | _ => .error ("couldnt agree on handshake version for client connection")

/-- Test whether a handshake agent run ended in the `Accepted` output. -/
def isAccepted : Except Error HandshakeOutput → Bool
  | .ok (.accepted _ _) => true
  | _ => false

/-- Modelled from the spec: one endpoint of the inter-stage channel; `none`
capacity means an unbounded channel, `some n` a channel bounded at n queued
events. -/
structure StageChannel where
  capacity : Option Nat
deriving DecidableEq

/-- Modelled from the spec: `new_inter_stage_channel` (crate::pipelining,
outside the verified source) creates the sending and receiving endpoints of a
fresh inter-stage channel with the given capacity bound; passing `None`
yields an unbounded channel. -/
def new_inter_stage_channel (cap : Option Nat) : StageChannel × StageChannel :=
  (⟨cap⟩, ⟨cap⟩)

/-- Modelled from the spec: sending into a bounded inter-stage channel blocks
when the number of queued events has reached the capacity bound; an unbounded
channel never blocks the sender on capacity. -/
def sendWouldBlock (tx : StageChannel) (queued : Nat) : Bool :=
  match tx.capacity with
  | none => false
  | some n => n ≤ queued

/-- Modelled from the spec: shared pipeline utilities (pipeline-wide chain
info among them); opaque to the bootstrap logic, which only clones them into
the event writer and passes them to start-point resolution. -/
structure Utils where
  wellKnown : ChainWellKnownInfo
deriving DecidableEq

/-- Modelled from the spec: the event writer bundles the sending endpoint of
the inter-stage channel with the shared utilities and the mapper
configuration (`EventWriter::new`). -/
structure EventWriter where
  output_tx : StageChannel
  utils : Utils
  mapper : MapperConfig
deriving DecidableEq

/-- Pairing of a source configuration with the shared utilities
(`WithUtils<Config>`), the receiver type of `bootstrap`. -/
structure WithUtils where
  inner : Config
  utils : Utils
deriving DecidableEq

/-- Modelled from the spec: `setup_multiplexer` (crate::sources, outside the
verified source) establishes the bearer connection, retried per the policy,
and splits it into channels for the listed protocol ids; its outcome is
supplied by the environment. -/
def setup_multiplexer (address : AddressArg) (protocols : List Nat)
    (retry : Option RetryPolicy) (res : Except Error Unit) :
    Except Error Unit :=
  res

/-- Modelled from the spec: `define_start_point` (crate::sources, outside the
verified source) resolves the candidate start points from the intersect
option and the deprecated since option, possibly consulting the node over the
chain-sync channel; its outcome is supplied by the environment. -/
def define_start_point (intersect : Option IntersectArg)
    (since : Option PointArg) (utils : Utils)
    (res : Except Error (List PointArg)) : Except Error (List PointArg) :=
  res

/-- Modelled from the spec: `observe_forever` (crate::sources::n2c::run,
outside the verified source) runs the chain-sync agent over its channel with
the rollback buffer at the given confirmation depth, writing confirmed events
through the writer; its outcome is supplied by the environment. -/
def observe_forever (writer : EventWriter) (known_points : List PointArg)
    (min_depth : Nat) (loopResult : Except Error Unit) : Except Error Unit :=
  loopResult

/-- Completion signal of the spawned worker thread as observed by joining its
handle: `ok` when the closure returned normally, `error` carrying the panic
message when the closure panicked. -/
structure WorkerHandle where
  completion : Except Error Unit

/-- Embedding of the worker closure spawned by bootstrap (setup.rs lines
101-104): it runs `observe_forever` and calls `.expect("chainsync loop
failed")` on the result, so a loop failure panics the thread with that
message and the error, surfacing through the join handle; a loop that returns
cleanly completes the thread normally. -/
def spawnChainSyncWorker (writer : EventWriter) (known_points : List PointArg)
    (min_depth : Nat) (loopResult : Except Error Unit) : WorkerHandle :=
  match observe_forever writer known_points min_depth loopResult with
  | .ok _ => { completion := .ok () }
  | .error e => { completion := .error ("chainsync loop failed: " ++ e) }

/-- Magic resolution performed by bootstrap (setup.rs lines 78-81): the
configured value when present, the well-known mainnet magic otherwise. -/
def resolveMagic (magic : Option MagicArg) : Nat :=
  match magic with
  | some m => m.val
  | none => MAINNET_MAGIC

/-- Observable steps of the bootstrap orchestration, recorded in the order
the embedding performs them. -/
inductive Step
  | createInterStageChannel (capacity : Option Nat)
  | setupMux (protocols : List Nat)
  | handshake (protocol : Nat) (versions : VersionTable)
  | resolveIntersect (protocol : Nat)
  | spawnWorker (min_depth : Nat)
deriving DecidableEq

/-- Result of running bootstrap: the value returned to the caller, the trace
of orchestration steps performed, and the configuration state after the call
(the receiver is a shared reference in the source; the embedding threads the
configuration explicitly so the frame condition can be stated). -/
structure BootstrapRun where
  result : Except Error (WorkerHandle × StageChannel)
  trace : List Step
  finalConfig : Config

/-- Embedding of `bootstrap` (setup.rs lines 68-107), line by line: create
the inter-stage channel passing `None` as capacity, set up the multiplexer
over protocol ids 0 and 5 from the address and retry policy, default the
magic to `MAINNET_MAGIC` when the field is unset, build the event writer, run
the handshake on channel 0, resolve the start points on the chain-sync
channel 5, then spawn the worker thread running the chain-sync loop at
`min_depth` and return its handle together with the receiving end of the
channel. Each `?` in the source becomes an early error return, recorded by a
trace that stops at the failing step. -/
def bootstrap (s : WithUtils) (env : Env) : BootstrapRun :=
  let chan := new_inter_stage_channel none
  let output_rx := chan.2
  let t1 := [Step.createInterStageChannel none, Step.setupMux [0, 5]]
  match setup_multiplexer s.inner.address [0, 5] s.inner.retry_policy
      env.muxResult with
  | .error e => { result := .error e, trace := t1, finalConfig := s.inner }
  | .ok _ =>
    let magic := resolveMagic s.inner.magic
    let writer : EventWriter :=
      { output_tx := chan.1, utils := s.utils, mapper := s.inner.mapper }
    let t2 := t1 ++ [Step.handshake 0 (v1_and_above magic)]
    match do_handshake magic env.hsResult with
    | .error e => { result := .error e, trace := t2, finalConfig := s.inner }
    | .ok _ =>
      let t3 := t2 ++ [Step.resolveIntersect 5]
      match define_start_point s.inner.intersect s.inner.since s.utils
          env.intersectResult with
      | .error e => { result := .error e, trace := t3, finalConfig := s.inner }
      | .ok known_points =>
        let min_depth := s.inner.min_depth
        let handle :=
          spawnChainSyncWorker writer known_points min_depth
            env.chainSyncResult
        { result := .ok (handle, output_rx)
          trace := t3 ++ [Step.spawnWorker min_depth]
          finalConfig := s.inner }

/-- First failure among the bootstrap steps that precede the worker spawn:
multiplexer setup, then the handshake, then start-point resolution; `none`
when all three succeed. -/
def firstFailure (magic : Nat) (env : Env) : Option Error :=
  match env.muxResult with
  | .error e => some e
  | .ok _ =>
    match do_handshake magic env.hsResult with
    | .error e => some e
    | .ok _ =>
      match env.intersectResult with
      | .error e => some e
      | .ok _ => none

/-- Test whether an Except value is a success. -/
def exceptIsOk {ε α : Type} : Except ε α → Bool
  | .ok _ => true
  | .error _ => false

/-- Concrete configuration used to instantiate theorems with hypotheses. -/
def cfgA : Config :=
  { address := ⟨BearerKind.unix, "node.socket"⟩
    magic := none
    since := none
    intersect := none
    well_known := none
    mapper := ⟨0⟩
    min_depth := 0
    retry_policy := none }

/-- Concrete shared utilities used to instantiate theorems. -/
def utilsA : Utils := ⟨⟨764824073⟩⟩

/-- Concrete environment in which every external call succeeds. -/
def envOk : Env :=
  { muxResult := .ok ()
    hsResult := .ok (.accepted 1 764824073)
    intersectResult := .ok []
    chainSyncResult := .ok () }

/-- C1: when bootstrap succeeds, its steps happen in the fixed order of the
source: creation of the inter-stage channel, multiplexer setup over protocol
ids 0 and 5, handshake on channel 0, intersection resolution on the
chain-sync channel 5, and only then the worker spawn at the configured depth;
the returned value pairs the worker handle with the receiving end of the
channel created at the start. -/
theorem C1_bootstrap_step_order (s : WithUtils) (env : Env)
    (h : exceptIsOk (bootstrap s env).result = true) :
    (bootstrap s env).trace =
      [Step.createInterStageChannel none, Step.setupMux [0, 5],
        Step.handshake 0 (v1_and_above (resolveMagic s.inner.magic)),
        Step.resolveIntersect 5, Step.spawnWorker s.inner.min_depth] ∧
    ∃ handle, (bootstrap s env).result =
      .ok (handle, (new_inter_stage_channel none).2) := by
  cases env with
  | mk mux hs int cs =>
    cases mux with
    | error e =>
      simp [bootstrap, setup_multiplexer, exceptIsOk] at h
    | ok u =>
      cases hdh : do_handshake (resolveMagic s.inner.magic) hs with
      | error e =>
        simp [bootstrap, setup_multiplexer, hdh, exceptIsOk] at h
      | ok u2 =>
        cases int with
        | error e =>
          simp [bootstrap, setup_multiplexer, define_start_point, hdh,
            exceptIsOk] at h
        | ok ps =>
          simp [bootstrap, setup_multiplexer, define_start_point, hdh]

/-- C1 witness: a successful run on a concrete configuration and
environment. -/
theorem C1_bootstrap_step_order_witness :
    exceptIsOk (bootstrap ⟨cfgA, utilsA⟩ envOk).result = true ∧
    ((bootstrap ⟨cfgA, utilsA⟩ envOk).trace =
      [Step.createInterStageChannel none, Step.setupMux [0, 5],
        Step.handshake 0 (v1_and_above (resolveMagic cfgA.magic)),
        Step.resolveIntersect 5, Step.spawnWorker cfgA.min_depth] ∧
    ∃ handle, (bootstrap ⟨cfgA, utilsA⟩ envOk).result =
      .ok (handle, (new_inter_stage_channel none).2)) :=
  ⟨rfl, C1_bootstrap_step_order ⟨cfgA, utilsA⟩ envOk rfl⟩

/-- C2: when the handshake run ends in any outcome other than `Accepted`,
bootstrap returns the handshake error produced by `do_handshake` and no
worker-spawn step ever happens. -/
theorem C2_handshake_failure_no_worker (s : WithUtils) (env : Env)
    (hm : env.muxResult = .ok ())
    (hh : isAccepted env.hsResult = false) :
    (∃ e, do_handshake (resolveMagic s.inner.magic) env.hsResult = .error e ∧
      (bootstrap s env).result = .error e) ∧
    ∀ d, Step.spawnWorker d ∉ (bootstrap s env).trace := by
  cases env with
  | mk mux hs int cs =>
    cases mux with
    | error e => exact absurd hm (by simp)
    | ok u =>
      cases hs with
      | error e =>
        simp [bootstrap, setup_multiplexer, do_handshake]
      | ok out =>
        cases out with
        | accepted v m => simp [isAccepted] at hh
        | refused r =>
          simp [bootstrap, setup_multiplexer, do_handshake]
        | pending =>
          simp [bootstrap, setup_multiplexer, do_handshake]

/-- C2 witness: a refused handshake on a concrete configuration and
environment. -/
theorem C2_handshake_failure_no_worker_witness :
    (Env.mk (.ok ()) (.ok (.refused ("unsupported"))) (.ok []) (.ok
      ())).muxResult = .ok () ∧
    isAccepted (Env.mk (.ok ()) (.ok (.refused ("unsupported"))) (.ok [])
      (.ok ())).hsResult = false ∧
    ((∃ e, do_handshake (resolveMagic cfgA.magic)
        (Env.mk (.ok ()) (.ok (.refused ("unsupported"))) (.ok [])
          (.ok ())).hsResult = .error e ∧
      (bootstrap ⟨cfgA, utilsA⟩
        (Env.mk (.ok ()) (.ok (.refused ("unsupported"))) (.ok [])
          (.ok ()))).result = .error e) ∧
    ∀ d, Step.spawnWorker d ∉
      (bootstrap ⟨cfgA, utilsA⟩
        (Env.mk (.ok ()) (.ok (.refused ("unsupported"))) (.ok [])
          (.ok ()))).trace) :=
  ⟨rfl, rfl, C2_handshake_failure_no_worker ⟨cfgA, utilsA⟩
    (Env.mk (.ok ()) (.ok (.refused ("unsupported"))) (.ok []) (.ok ()))
    rfl rfl⟩

/-- C3 counterexample: `do_handshake` discards the accepted version and
magic - two handshakes accepted at different versions and with different
magic values produce the identical `Ok(())` result, so the caller cannot
recover the accepted protocol version or magic from what the operation
returns. -/
theorem C3_counterexample :
    do_handshake MAINNET_MAGIC (.ok (.accepted 1 764824073)) =
      do_handshake MAINNET_MAGIC (.ok (.accepted 7 42)) ∧
    do_handshake MAINNET_MAGIC (.ok (.accepted 1 764824073)) = .ok () :=
  ⟨rfl, rfl⟩

/-- C3 (amended): on a successful handshake (node response `Accepted`), the
handshake operation reports bare success to its caller: it returns `Ok(())`
for every accepted version and magic, logging the accepted values but not
returning them. -/
theorem C3_handshake_accepted_returns_unit (magic v m : Nat) :
    do_handshake magic (.ok (.accepted v m)) = .ok () := rfl

/-- C4: whenever one of the steps preceding the worker spawn fails
(multiplexer setup, handshake, start-point resolution), bootstrap returns
that first error synchronously and no worker-spawn step happens, so no
handle or channel endpoint is produced. -/
theorem C4_prespawn_failure_aborts (s : WithUtils) (env : Env) (e : Error)
    (h : firstFailure (resolveMagic s.inner.magic) env = some e) :
    (bootstrap s env).result = .error e ∧
    ∀ d, Step.spawnWorker d ∉ (bootstrap s env).trace := by
  cases env with
  | mk mux hs int cs =>
    cases mux with
    | error e2 =>
      simp [firstFailure] at h
      simp [bootstrap, setup_multiplexer, h]
    | ok u =>
      cases hdh : do_handshake (resolveMagic s.inner.magic) hs with
      | error e2 =>
        simp [firstFailure, hdh] at h
        simp [bootstrap, setup_multiplexer, hdh, h]
      | ok u2 =>
        cases int with
        | error e2 =>
          simp [firstFailure, hdh] at h
          simp [bootstrap, setup_multiplexer, define_start_point, hdh, h]
        | ok ps =>
          simp [firstFailure, hdh] at h

/-- C4 witness: a multiplexer setup failure on a concrete configuration and
environment. -/
theorem C4_prespawn_failure_aborts_witness :
    firstFailure (resolveMagic cfgA.magic)
      (Env.mk (.error ("refused")) (.ok .pending) (.ok []) (.ok ())) =
      some ("refused") ∧
    ((bootstrap ⟨cfgA, utilsA⟩
        (Env.mk (.error ("refused")) (.ok .pending) (.ok [])
          (.ok ()))).result = .error ("refused") ∧
    ∀ d, Step.spawnWorker d ∉
      (bootstrap ⟨cfgA, utilsA⟩
        (Env.mk (.error ("refused")) (.ok .pending) (.ok [])
          (.ok ()))).trace) :=
  ⟨rfl, C4_prespawn_failure_aborts ⟨cfgA, utilsA⟩
    (Env.mk (.error ("refused")) (.ok .pending) (.ok []) (.ok ())) ("refused")
    rfl⟩

/-- Helper: whenever bootstrap succeeds, the worker-spawn step at the
configured confirmation depth appears in the trace. -/
lemma bootstrap_ok_spawn (s : WithUtils) (env : Env)
    (h : exceptIsOk (bootstrap s env).result = true) :
    Step.spawnWorker s.inner.min_depth ∈ (bootstrap s env).trace := by
  cases env with
  | mk mux hs int cs =>
    cases mux with
    | error e =>
      simp [bootstrap, setup_multiplexer, exceptIsOk] at h
    | ok u =>
      cases hdh : do_handshake (resolveMagic s.inner.magic) hs with
      | error e =>
        simp [bootstrap, setup_multiplexer, hdh, exceptIsOk] at h
      | ok u2 =>
        cases int with
        | error e =>
          simp [bootstrap, setup_multiplexer, define_start_point, hdh,
            exceptIsOk] at h
        | ok ps =>
          simp [bootstrap, setup_multiplexer, define_start_point, hdh]

/-- Helper: whenever the multiplexer setup succeeds, the trace records the
handshake on channel 0 proposing the version table built from the resolved
magic, whatever happens afterwards. -/
lemma bootstrap_trace_handshake (s : WithUtils) (env : Env)
    (hm : env.muxResult = .ok ()) :
    Step.handshake 0 (v1_and_above (resolveMagic s.inner.magic)) ∈
      (bootstrap s env).trace := by
  cases env with
  | mk mux hs int cs =>
    cases mux with
    | error e => exact absurd hm (by simp)
    | ok u =>
      cases hdh : do_handshake (resolveMagic s.inner.magic) hs with
      | error e =>
        simp [bootstrap, setup_multiplexer, hdh]
      | ok u2 =>
        cases int with
        | error e =>
          simp [bootstrap, setup_multiplexer, define_start_point, hdh]
        | ok ps =>
          simp [bootstrap, setup_multiplexer, define_start_point, hdh]

/-- C5: when every step before the spawn succeeds but the chain-sync loop
inside the worker fails, bootstrap still returns successfully with the
handle and the channel endpoint, and the loop failure surfaces as the panic
message in the worker completion signal observable through that handle. -/
theorem C5_worker_failure_via_completion (s : WithUtils) (env : Env)
    (ps : List PointArg) (e : Error)
    (hm : env.muxResult = .ok ())
    (hh : isAccepted env.hsResult = true)
    (hi : env.intersectResult = .ok ps)
    (hc : env.chainSyncResult = .error e) :
    ∃ handle rx, (bootstrap s env).result = .ok (handle, rx) ∧
      handle.completion = .error ("chainsync loop failed: " ++ e) := by
  cases env with
  | mk mux hs int cs =>
    cases mux with
    | error e2 => exact absurd hm (by simp)
    | ok u =>
      cases hs with
      | error e2 => simp [isAccepted] at hh
      | ok out =>
        cases out with
        | accepted v m =>
          cases int with
          | error e2 => exact absurd hi (by simp)
          | ok ps2 =>
            cases cs with
            | error e2 =>
              simp only [Except.error.injEq] at hc
              subst hc
              refine ⟨spawnChainSyncWorker
                ⟨(new_inter_stage_channel none).1, s.utils, s.inner.mapper⟩
                ps2 s.inner.min_depth (.error e2),
                (new_inter_stage_channel none).2, ?_, ?_⟩
              · simp [bootstrap, setup_multiplexer, do_handshake,
                  define_start_point]
              · simp [spawnChainSyncWorker, observe_forever]
            | ok u2 => exact absurd hc (by simp)
        | refused r => simp [isAccepted] at hh
        | pending => simp [isAccepted] at hh

/-- C5 witness: a failing chain-sync loop on a concrete configuration and
environment in which everything before the spawn succeeds. -/
theorem C5_worker_failure_via_completion_witness :
    (Env.mk (.ok ()) (.ok (.accepted 1 764824073)) (.ok [])
      (.error ("socket closed"))).muxResult = .ok () ∧
    isAccepted (Env.mk (.ok ()) (.ok (.accepted 1 764824073)) (.ok [])
      (.error ("socket closed"))).hsResult = true ∧
    (Env.mk (.ok ()) (.ok (.accepted 1 764824073)) (.ok [])
      (.error ("socket closed"))).intersectResult = .ok [] ∧
    (Env.mk (.ok ()) (.ok (.accepted 1 764824073)) (.ok [])
      (.error ("socket closed"))).chainSyncResult = .error ("socket closed") ∧
    ∃ handle rx,
      (bootstrap ⟨cfgA, utilsA⟩
        (Env.mk (.ok ()) (.ok (.accepted 1 764824073)) (.ok [])
          (.error ("socket closed")))).result = .ok (handle, rx) ∧
      handle.completion = .error ("chainsync loop failed: " ++ "socket closed") :=
  ⟨rfl, rfl, rfl, rfl, C5_worker_failure_via_completion ⟨cfgA, utilsA⟩
    (Env.mk (.ok ()) (.ok (.accepted 1 764824073)) (.ok [])
      (.error ("socket closed"))) [] ("socket closed") rfl rfl rfl rfl⟩

/-- C6: once the multiplexer is up, the handshake proposal uses the
well-known mainnet magic when the configuration omits the magic field, and
the configured value when the field is present. -/
theorem C6_magic_defaults_to_mainnet (s : WithUtils) (env : Env)
    (hm : env.muxResult = .ok ()) :
    (s.inner.magic = none →
      Step.handshake 0 (v1_and_above MAINNET_MAGIC) ∈
        (bootstrap s env).trace) ∧
    ∀ m, s.inner.magic = some m →
      Step.handshake 0 (v1_and_above m.val) ∈ (bootstrap s env).trace := by
  have key := bootstrap_trace_handshake s env hm
  constructor
  · intro hnone
    rw [hnone] at key
    simpa [resolveMagic] using key
  · intro m hsome
    rw [hsome] at key
    simpa [resolveMagic] using key

/-- C6 witness: a configuration with no magic field instantiated in the
all-success environment. -/
theorem C6_magic_defaults_to_mainnet_witness :
    envOk.muxResult = .ok () ∧
    ((cfgA.magic = none →
      Step.handshake 0 (v1_and_above MAINNET_MAGIC) ∈
        (bootstrap ⟨cfgA, utilsA⟩ envOk).trace) ∧
    ∀ m, cfgA.magic = some m →
      Step.handshake 0 (v1_and_above m.val) ∈
        (bootstrap ⟨cfgA, utilsA⟩ envOk).trace) :=
  ⟨rfl, C6_magic_defaults_to_mainnet ⟨cfgA, utilsA⟩ envOk rfl⟩

/-- C7: when the serialized configuration omits the min_depth field, the
deserialized value is 0 and a successful bootstrap spawns the chain-sync
worker with confirmation depth 0. -/
theorem C7_min_depth_defaults_to_zero (raw : RawConfig) (u : Utils)
    (env : Env) (hd : raw.min_depth = none)
    (h : exceptIsOk (bootstrap ⟨deserializeConfig raw, u⟩ env).result =
      true) :
    (deserializeConfig raw).min_depth = 0 ∧
    Step.spawnWorker 0 ∈ (bootstrap ⟨deserializeConfig raw, u⟩ env).trace := by
  have hz : (deserializeConfig raw).min_depth = 0 := by
    simp [deserializeConfig, hd]
  refine ⟨hz, ?_⟩
  have key := bootstrap_ok_spawn ⟨deserializeConfig raw, u⟩ env h
  rwa [hz] at key

/-- Concrete serialized configuration omitting every defaultable field. -/
def rawA : RawConfig :=
  { address := ⟨BearerKind.unix, "node.socket"⟩
    magic := none
    since := none
    intersect := none
    well_known := none
    mapper := none
    min_depth := none
    retry_policy := none }

/-- C7 witness: the concrete serialized configuration with min_depth absent,
run in the all-success environment. -/
theorem C7_min_depth_defaults_to_zero_witness :
    rawA.min_depth = none ∧
    exceptIsOk (bootstrap ⟨deserializeConfig rawA, utilsA⟩ envOk).result =
      true ∧
    ((deserializeConfig rawA).min_depth = 0 ∧
      Step.spawnWorker 0 ∈
        (bootstrap ⟨deserializeConfig rawA, utilsA⟩ envOk).trace) :=
  ⟨rfl, rfl, C7_min_depth_defaults_to_zero rawA utilsA envOk rfl rfl⟩

/-- C8: bootstrap never mutates the configuration - every field of the
configuration state after the call equals the corresponding field before
it. -/
theorem C8_config_unchanged (s : WithUtils) (env : Env) :
    (bootstrap s env).finalConfig.address = s.inner.address ∧
    (bootstrap s env).finalConfig.magic = s.inner.magic ∧
    (bootstrap s env).finalConfig.since = s.inner.since ∧
    (bootstrap s env).finalConfig.intersect = s.inner.intersect ∧
    (bootstrap s env).finalConfig.well_known = s.inner.well_known ∧
    (bootstrap s env).finalConfig.mapper = s.inner.mapper ∧
    (bootstrap s env).finalConfig.min_depth = s.inner.min_depth ∧
    (bootstrap s env).finalConfig.retry_policy = s.inner.retry_policy := by
  cases env with
  | mk mux hs int cs =>
    cases mux with
    | error e => simp [bootstrap, setup_multiplexer]
    | ok u =>
      cases hdh : do_handshake (resolveMagic s.inner.magic) hs with
      | error e => simp [bootstrap, setup_multiplexer, hdh]
      | ok u2 =>
        cases int with
        | error e =>
          simp [bootstrap, setup_multiplexer, define_start_point, hdh]
        | ok ps =>
          simp [bootstrap, setup_multiplexer, define_start_point, hdh]

/-- C9: the channel endpoint a successful bootstrap returns belongs to the
inter-stage channel created with no capacity bound, so sending a confirmed
event into it never blocks on a capacity limit, whatever the queue length. -/
theorem C9_output_channel_unbounded (s : WithUtils) (env : Env)
    (handle : WorkerHandle) (rx : StageChannel)
    (h : (bootstrap s env).result = .ok (handle, rx)) :
    rx.capacity = none ∧
    (∀ queued, sendWouldBlock rx queued = false) ∧
    Step.createInterStageChannel none ∈ (bootstrap s env).trace := by
  cases env with
  | mk mux hs int cs =>
    cases mux with
    | error e =>
      simp [bootstrap, setup_multiplexer] at h
    | ok u =>
      cases hdh : do_handshake (resolveMagic s.inner.magic) hs with
      | error e =>
        simp [bootstrap, setup_multiplexer, hdh] at h
      | ok u2 =>
        cases int with
        | error e =>
          simp [bootstrap, setup_multiplexer, define_start_point, hdh] at h
        | ok ps =>
          simp [bootstrap, setup_multiplexer, define_start_point, hdh,
            new_inter_stage_channel] at h
          obtain ⟨h1, h2⟩ := h
          subst h2
          refine ⟨rfl, ?_, ?_⟩
          · intro queued
            simp [sendWouldBlock]
          · simp [bootstrap, setup_multiplexer, define_start_point, hdh]

/-- C9 witness: the successful concrete run returns the endpoint of the
unbounded channel. -/
theorem C9_output_channel_unbounded_witness :
    (bootstrap ⟨cfgA, utilsA⟩ envOk).result =
      .ok (⟨.ok ()⟩, ⟨none⟩) ∧
    ((⟨none⟩ : StageChannel).capacity = none ∧
    (∀ queued, sendWouldBlock ⟨none⟩ queued = false) ∧
    Step.createInterStageChannel none ∈
      (bootstrap ⟨cfgA, utilsA⟩ envOk).trace) :=
  ⟨rfl, C9_output_channel_unbounded ⟨cfgA, utilsA⟩ envOk ⟨.ok ()⟩ ⟨none⟩ rfl⟩

/-- C10: the deprecated well_known field has no effect on bootstrap - two
configurations equal in every other field produce the same result and the
same step trace in every environment. -/
theorem C10_well_known_no_effect (c1 c2 : Config) (u : Utils) (env : Env)
    (ha : c1.address = c2.address) (hm : c1.magic = c2.magic)
    (hsi : c1.since = c2.since) (hi : c1.intersect = c2.intersect)
    (hmap : c1.mapper = c2.mapper) (hd : c1.min_depth = c2.min_depth)
    (hr : c1.retry_policy = c2.retry_policy) :
    (bootstrap ⟨c1, u⟩ env).result = (bootstrap ⟨c2, u⟩ env).result ∧
    (bootstrap ⟨c1, u⟩ env).trace = (bootstrap ⟨c2, u⟩ env).trace := by
  obtain ⟨a, mg, si, it, w1, mp, md, rp⟩ := c1
  obtain ⟨a2, mg2, si2, it2, w2, mp2, md2, rp2⟩ := c2
  simp only at ha hm hsi hi hmap hd hr
  subst ha
  subst hm
  subst hsi
  subst hi
  subst hmap
  subst hd
  subst hr
  cases env with
  | mk mux hs int cs =>
    cases mux with
    | error e => exact ⟨rfl, rfl⟩
    | ok u2 =>
      cases hdh : do_handshake (resolveMagic mg) hs with
      | error e =>
        constructor <;> simp [bootstrap, setup_multiplexer, hdh]
      | ok u3 =>
        cases int with
        | error e =>
          constructor <;>
            simp [bootstrap, setup_multiplexer, define_start_point, hdh]
        | ok ps =>
          constructor <;>
            simp [bootstrap, setup_multiplexer, define_start_point, hdh]

/-- C10 witness: two concrete configurations differing only in well_known
behave identically in the all-success environment. -/
theorem C10_well_known_no_effect_witness :
    cfgA.address = ({ cfgA with well_known := some ⟨1⟩ } : Config).address ∧
    cfgA.magic = ({ cfgA with well_known := some ⟨1⟩ } : Config).magic ∧
    cfgA.since = ({ cfgA with well_known := some ⟨1⟩ } : Config).since ∧
    cfgA.intersect =
      ({ cfgA with well_known := some ⟨1⟩ } : Config).intersect ∧
    cfgA.mapper = ({ cfgA with well_known := some ⟨1⟩ } : Config).mapper ∧
    cfgA.min_depth =
      ({ cfgA with well_known := some ⟨1⟩ } : Config).min_depth ∧
    cfgA.retry_policy =
      ({ cfgA with well_known := some ⟨1⟩ } : Config).retry_policy ∧
    ((bootstrap ⟨cfgA, utilsA⟩ envOk).result =
      (bootstrap ⟨{ cfgA with well_known := some ⟨1⟩ }, utilsA⟩ envOk).result ∧
    (bootstrap ⟨cfgA, utilsA⟩ envOk).trace =
      (bootstrap ⟨{ cfgA with well_known := some ⟨1⟩ }, utilsA⟩ envOk).trace) :=
  ⟨rfl, rfl, rfl, rfl, rfl, rfl, rfl,
    C10_well_known_no_effect cfgA { cfgA with well_known := some ⟨1⟩ } utilsA
      envOk rfl rfl rfl rfl rfl rfl rfl⟩
